import Mathlib

/-!
Verification of the Senechal MCP health-adapter (`senechal_mcp_server.py`).

The development shallowly embeds the adapter: JSON values are an inductive
type with an explicit decoder/encoder (modelling Python's `json` module,
restricted to integer numerals and to string escapes for quote and
backslash); the upstream HTTP service is an oracle mapping each request to
a behaviour (a status/body response or a transport failure); each tool and
resource implementation is a Lean function that returns its payload
together with the list of upstream requests it issued.
-/

namespace Senechal

/-- JSON values as Python's `json.loads` produces them: `null`, booleans,
(integer) numbers, strings, arrays and objects (association lists of
string keys, insertion-ordered as Python dicts are). -/
inductive Json where
  | null : Json
  | bool (b : Bool) : Json
  | num (n : Int) : Json
  | str (s : List Char) : Json
  | arr (xs : List Json) : Json
  | obj (kvs : List (List Char × Json)) : Json

/-- The decimal digit character for `n % 10`. -/
def digitChar : Nat → Char
  | 0 => '0'
  | 1 => '1'
  | 2 => '2'
  | 3 => '3'
  | 4 => '4'
  | 5 => '5'
  | 6 => '6'
  | 7 => '7'
  | 8 => '8'
  | _ => '9'

/-- Fuelled decimal rendering of a natural number (most significant digit
first); `fuel > n` always suffices. -/
def natDigitsF : Nat → Nat → List Char
  | 0, _ => []
  | fuel + 1, n =>
    if n < 10 then [digitChar n]
    else natDigitsF fuel (n / 10) ++ [digitChar (n % 10)]

/-- Decimal rendering of a natural number, as Python's `str`. -/
def natDigits (n : Nat) : List Char := natDigitsF (n + 1) n

/-- Decimal rendering of an integer, as Python's `str`. -/
def intChars : Int → List Char
  | Int.ofNat n => natDigits n
  | Int.negSucc n => '-' :: natDigits (n + 1)

/-- JSON string escaping for one character (quote and backslash; other
characters pass through). -/
def escapeChar (c : Char) : List Char :=
  if c = '"' ∨ c = '\\' then ['\\', c] else [c]

/-- JSON string escaping. -/
def escapeStr (s : List Char) : List Char := (s.map escapeChar).flatten

mutual

/-- Canonical JSON encoding of a value, modelling `json.dumps` of the
decoded value (compact separators; formatting whitespace is not
reproduced). -/
def encode : Json → List Char
  | Json.null => ['n', 'u', 'l', 'l']
  | Json.bool true => ['t', 'r', 'u', 'e']
  | Json.bool false => ['f', 'a', 'l', 's', 'e']
  | Json.num n => intChars n
  | Json.str s => '"' :: escapeStr s ++ ['"']
  | Json.arr [] => ['[', ']']
  | Json.arr (v :: vs) => '[' :: (encode v ++ encodeTail vs) ++ [']']
  | Json.obj [] => ['{', '}']
  | Json.obj (kv :: kvs) => '{' :: (encodeMember kv ++ encodeMembersTail kvs) ++ ['}']

/-- Encoding of the tail of an array: a comma before every element. -/
def encodeTail : List Json → List Char
  | [] => []
  | v :: vs => ',' :: (encode v ++ encodeTail vs)

/-- Encoding of one object member: quoted key, colon, value. -/
def encodeMember : List Char × Json → List Char
  | (k, v) => '"' :: (escapeStr k ++ '"' :: ':' :: encode v)

/-- Encoding of the tail of an object: a comma before every member. -/
def encodeMembersTail : List (List Char × Json) → List Char
  | [] => []
  | kv :: kvs => ',' :: (encodeMember kv ++ encodeMembersTail kvs)

end

/-- JSON insignificant whitespace. -/
def isWsChar (c : Char) : Bool := c = ' ' ∨ c = '\t' ∨ c = '\n' ∨ c = '\r'

/-- Drop leading JSON whitespace. -/
def dropWs : List Char → List Char
  | [] => []
  | c :: cs => if isWsChar c then dropWs cs else c :: cs

/-- Parse the remainder of a JSON string (the opening quote already
consumed): the decoded characters and the input after the closing quote. -/
def parseString : List Char → Option (List Char × List Char)
  | [] => none
  | c :: cs =>
    if c = '"' then some ([], cs)
    else if c = '\\' then
      match cs with
      | [] => none
      | d :: cs2 =>
        if d = '"' ∨ d = '\\' then (parseString cs2).map (fun p => (d :: p.1, p.2))
        else none
    else (parseString cs).map (fun p => (c :: p.1, p.2))

/-- Split a maximal run of leading decimal digits from the input. -/
def parseDigits : List Char → List Char × List Char
  | [] => ([], [])
  | c :: cs =>
    if c.isDigit then
      let p := parseDigits cs
      (c :: p.1, p.2)
    else ([], c :: cs)

/-- The natural number a list of decimal digits denotes. -/
def digitsToNat (ds : List Char) : Nat :=
  ds.foldl (fun a c => a * 10 + (c.toNat - 48)) 0

/-- Parse a JSON (integer) number: an optional minus sign and at least one
digit. -/
def parseNumber : List Char → Option (Json × List Char)
  | [] => none
  | c :: cs =>
    if c = '-' then
      match parseDigits cs with
      | ([], _) => none
      | (d :: ds, r) => some (Json.num (-(digitsToNat (d :: ds) : Int)), r)
    else
      match parseDigits (c :: cs) with
      | ([], _) => none
      | (d :: ds, r) => some (Json.num (Int.ofNat (digitsToNat (d :: ds))), r)

/-- Strip an expected literal character sequence from the input. -/
def stripPrefixCh : List Char → List Char → Option (List Char)
  | [], cs => some cs
  | _ :: _, [] => none
  | p :: ps, c :: cs => if c = p then stripPrefixCh ps cs else none

mutual

/-- Fuelled recursive-descent parser for one JSON value: the value and the
unconsumed input. -/
def parseValue : Nat → List Char → Option (Json × List Char)
  | 0, _ => none
  | _ + 1, [] => none
  | fuel + 1, c :: rest =>
    if c = 'n' then (stripPrefixCh ['u', 'l', 'l'] rest).map (fun r => (Json.null, r))
    else if c = 't' then (stripPrefixCh ['r', 'u', 'e'] rest).map (fun r => (Json.bool true, r))
    else if c = 'f' then (stripPrefixCh ['a', 'l', 's', 'e'] rest).map (fun r => (Json.bool false, r))
    else if c = '"' then (parseString rest).map (fun p => (Json.str p.1, p.2))
    else if c = '[' then
      match dropWs rest with
      | [] => none
      | d :: r2 =>
        if d = ']' then some (Json.arr [], r2)
        else (parseElems fuel (d :: r2)).map (fun p => (Json.arr p.1, p.2))
    else if c = '{' then
      match dropWs rest with
      | [] => none
      | d :: r2 =>
        if d = '}' then some (Json.obj [], r2)
        else (parseMembers fuel (d :: r2)).map (fun p => (Json.obj p.1, p.2))
    else if c = '-' ∨ c.isDigit then parseNumber (c :: rest)
    else none

/-- Fuelled parse of the elements of a non-empty JSON array, up to and
including the closing bracket. -/
def parseElems : Nat → List Char → Option (List Json × List Char)
  | 0, _ => none
  | fuel + 1, cs =>
    match parseValue fuel (dropWs cs) with
    | none => none
    | some (v, r) =>
      match dropWs r with
      | [] => none
      | d :: r2 =>
        if d = ',' then (parseElems fuel r2).map (fun p => (v :: p.1, p.2))
        else if d = ']' then some ([v], r2)
        else none

/-- Fuelled parse of the members of a non-empty JSON object, up to and
including the closing brace. -/
def parseMembers : Nat → List Char → Option (List (List Char × Json) × List Char)
  | 0, _ => none
  | fuel + 1, cs =>
    match dropWs cs with
    | [] => none
    | c :: r1 =>
      if c = '"' then
        match parseString r1 with
        | none => none
        | some (k, r2) =>
          match dropWs r2 with
          | [] => none
          | d :: r3 =>
            if d = ':' then
              match parseValue fuel (dropWs r3) with
              | none => none
              | some (v, r4) =>
                match dropWs r4 with
                | [] => none
                | e :: r5 =>
                  if e = ',' then (parseMembers fuel r5).map (fun p => ((k, v) :: p.1, p.2))
                  else if e = '}' then some ([(k, v)], r5)
                  else none
            else none
      else none

end

/-- Parse a complete JSON document, modelling Python's `json.loads`:
`none` models a raised `JSONDecodeError`. -/
def parseTop (s : List Char) : Option Json :=
  match parseValue (s.length + 1) (dropWs s) with
  | some (v, r) => if dropWs r = [] then some v else none
  | none => none

/-- First-match key lookup in a JSON object's members (Python dict
indexing; dict keys are unique). -/
def lookupKey : List (List Char × Json) → List Char → Option Json
  | [], _ => none
  | (k, v) :: kvs, key => if k = key then some v else lookupKey kvs key

/-- Python parameter values as they stand in the `params` dicts the server
builds: strings, or integers (httpx stringifies an integer value when it
renders the query). -/
inductive PVal where
  | s (v : String) : PVal
  | i (n : Int) : PVal
deriving DecidableEq

/-- One upstream HTTP GET as the adapter issues it: the endpoint path
(appended to the configured base URL) and the query parameters in dict
insertion order. Every request carries the `X-API-Key` header, which plays
no further role in the control flow. -/
structure Request where
  endpoint : String
  params : List (String × PVal)
deriving DecidableEq

/-- What the upstream service does with one request: respond with a status
code and a body, or fail at the transport level (timeout, connection
refused, ...). -/
inductive UpstreamBehavior where
  | respond (status : Nat) (body : List Char) : UpstreamBehavior
  | transportFail (msg : String) : UpstreamBehavior

/-- An upstream oracle: the behaviour of the service on each request. -/
abbrev Upstream : Type := Request → UpstreamBehavior

/-- Is the status a 2xx success (httpx `response.is_success`)? -/
def is2xx (status : Nat) : Bool := 200 ≤ status && status < 300

/-- The message of the `HTTPStatusError` that httpx's
`response.raise_for_status()` raises on a non-2xx status (modelled from
the httpx library, which the adapter uses as a black box). -/
def statusErrorMsg (status : Nat) : String :=
  "HTTP status error " ++ String.mk (natDigits status)

/-- The message of the `json.JSONDecodeError` that `response.json()`
raises when the body is not valid JSON (modelled from the json library). -/
def jsonDecodeErrorMsg : String := "Expecting value"

/-- `make_api_request` (senechal_mcp_server.py lines 98-119): one GET to
`{API_BASE_URL}/{endpoint}` with the API-key header; `raise_for_status()`;
then the parsed JSON body (`expect_json = true`) or the literal body text
(`expect_json = false`, returned as a Python `str`, embedded `Json.str`).
`Except.error` models the exception propagating to the caller (line 119
re-raises after counting the error). The second component is the list of
upstream requests issued — always exactly the one `client.get`. -/
def make_api_request (upstream : Upstream) (endpoint : String)
    (params : List (String × PVal)) (expect_json : Bool) :
    Except String Json × List Request :=
  let req : Request := ⟨endpoint, params⟩
  let result : Except String Json :=
    match upstream req with
    | UpstreamBehavior.transportFail msg => Except.error msg
    | UpstreamBehavior.respond status body =>
      if is2xx status then
        if expect_json then
          match parseTop body with
          | some v => Except.ok v
          | none => Except.error jsonDecodeErrorMsg
        else Except.ok (Json.str body)
      else Except.error (statusErrorMsg status)
  (result, [req])

/-- The fallback dictionary every JSON-mode handler returns when
`make_api_request` raises: the literal
`("error": f"API request failed: \x7bstr(e)\x7d", "message": ...)` of each
`except` block. -/
def errorEnvelope (e : String) (message : String) : Json :=
  Json.obj [("error".data, Json.str ("API request failed: " ++ e).data),
            ("message".data, Json.str message.data)]

/-- The fallback markdown string both profile handlers return when
`make_api_request` raises (lines 172 and 327). -/
def profileErrorText : String :=
  "# Error\n\nUnable to retrieve health profile data. Please check your API key and connection."

/-- Python's `','.join(map(str, types))` on the `types` argument. -/
def joinTypes (types : List Int) : String :=
  String.intercalate "," (types.map (fun n => String.mk (intChars n)))

/-- Python truthiness of the `types: Optional[List[int]]` argument:
`None` and the empty list are falsy. -/
def truthyTypes : Option (List Int) → Bool
  | none => false
  | some l => !l.isEmpty

/-- Tool `fetch_health_summary` (lines 273-307): forwards `metrics`,
`span`, `offset`, calls `health/summary/{period}`, envelope on failure. -/
def fetch_health_summary (upstream : Upstream) (period : String)
    (metrics : String) (span : Int) (offset : Int) : Json × List Request :=
  let params : List (String × PVal) :=
    [("metrics", PVal.s metrics), ("span", PVal.i span), ("offset", PVal.i offset)]
  match make_api_request upstream ("health/summary/" ++ period) params true with
  | (Except.ok data, trace) => (data, trace)
  | (Except.error e, trace) =>
    (errorEnvelope e ("Unable to retrieve health summary data for period '"
      ++ period ++ "'. Please check your API key and connection."), trace)

/-- Tool `fetch_health_profile` (lines 309-327): text-mode call to
`health/profile`; on failure returns the fixed markdown error string
(a Python `str`, not a dict). -/
def fetch_health_profile (upstream : Upstream) : Json × List Request :=
  match make_api_request upstream "health/profile" [] false with
  | (Except.ok data, trace) => (data, trace)
  | (Except.error _, trace) => (Json.str profileErrorText.data, trace)

/-- Tool `fetch_current_health` (lines 329-358): `types` forwarded
comma-joined only when truthy; envelope on failure. -/
def fetch_current_health (upstream : Upstream) (types : Option (List Int)) :
    Json × List Request :=
  let params : List (String × PVal) :=
    if truthyTypes types then [("types", PVal.s (joinTypes (types.getD [])))] else []
  match make_api_request upstream "health/current" params true with
  | (Except.ok data, trace) => (data, trace)
  | (Except.error e, trace) =>
    (errorEnvelope e "Unable to retrieve current health measurements. Please check your API key and connection.", trace)

/-- Tool `fetch_health_trends` (lines 360-391): params dict `days`,
`interval`, then `types` appended when truthy; envelope on failure. -/
def fetch_health_trends (upstream : Upstream) (days : Int)
    (types : Option (List Int)) (interval : String) : Json × List Request :=
  let params0 : List (String × PVal) := [("days", PVal.i days), ("interval", PVal.s interval)]
  let params := if truthyTypes types
    then params0 ++ [("types", PVal.s (joinTypes (types.getD [])))] else params0
  match make_api_request upstream "health/trends" params true with
  | (Except.ok data, trace) => (data, trace)
  | (Except.error e, trace) =>
    (errorEnvelope e ("Unable to retrieve health trend data for the past "
      ++ String.mk (intChars days) ++ " days. Please check your API key and connection."), trace)

/-- Tool `fetch_health_stats` (lines 393-423): params dict `days`, then
`types` appended when truthy; envelope on failure. -/
def fetch_health_stats (upstream : Upstream) (days : Int)
    (types : Option (List Int)) : Json × List Request :=
  let params0 : List (String × PVal) := [("days", PVal.i days)]
  let params := if truthyTypes types
    then params0 ++ [("types", PVal.s (joinTypes (types.getD [])))] else params0
  match make_api_request upstream "health/stats" params true with
  | (Except.ok data, trace) => (data, trace)
  | (Except.error e, trace) =>
    (errorEnvelope e ("Unable to retrieve health statistics data for the past "
      ++ String.mk (intChars days) ++ " days. Please check your API key and connection."), trace)

/-- Lines 135-141: the `request_params` dict the summary resource builds
from the caller's query parameters — the allow-list `metrics`, `span`,
`offset`, tested in that order; every other key is dropped silently. -/
def summary_request_params (query_params : List (String × String)) :
    List (String × PVal) :=
  let rp1 : List (String × PVal) :=
    match query_params.lookup "metrics" with
    | some v => [("metrics", PVal.s v)]
    | none => []
  let rp2 : List (String × PVal) :=
    match query_params.lookup "span" with
    | some v => rp1 ++ [("span", PVal.s v)]
    | none => rp1
  match query_params.lookup "offset" with
  | some v => rp2 ++ [("offset", PVal.s v)]
  | none => rp2

/-- The `impl` closure of resource `senechal://health/summary/{period}`
(lines 129-153): builds `request_params` (allow-list `metrics`, `span`,
`offset`); calls the API; envelope on failure. The `resource_uri` argument
is ignored, as in the source. -/
def get_health_summary (upstream : Upstream) (period : String)
    (_resource_uri : String) (query_params : List (String × String)) :
    Json × List Request :=
  match make_api_request upstream ("health/summary/" ++ period)
      (summary_request_params query_params) true with
  | (Except.ok data, trace) => (data, trace)
  | (Except.error e, trace) =>
    (errorEnvelope e ("Unable to retrieve health summary data for period '"
      ++ period ++ "'. Please check your API key and connection."), trace)

/-- The `impl` closure of resource `senechal://health/profile` (lines
160-172): text-mode call; fixed markdown error string on failure. -/
def get_health_profile (upstream : Upstream) (_resource_uri : String)
    (_query_params : List (String × String)) : Json × List Request :=
  match make_api_request upstream "health/profile" [] false with
  | (Except.ok data, trace) => (data, trace)
  | (Except.error _, trace) => (Json.str profileErrorText.data, trace)

/-- Lines 188-190: the `request_params` dict the current-measurements
resource builds (allow-list `types`). -/
def current_request_params (query_params : List (String × String)) :
    List (String × PVal) :=
  match query_params.lookup "types" with
  | some v => [("types", PVal.s v)]
  | none => []

/-- The `impl` closure of resource `senechal://health/current` (lines
183-202): allow-list `types`; envelope on failure. -/
def get_current_measurements (upstream : Upstream) (_resource_uri : String)
    (query_params : List (String × String)) : Json × List Request :=
  match make_api_request upstream "health/current"
      (current_request_params query_params) true with
  | (Except.ok data, trace) => (data, trace)
  | (Except.error e, trace) =>
    (errorEnvelope e "Unable to retrieve current health measurements. Please check your API key and connection.", trace)

/-- Lines 218-224: the `request_params` dict the trends resource builds
(allow-list `days`, `types`, `interval`, tested in that order). -/
def trends_request_params (query_params : List (String × String)) :
    List (String × PVal) :=
  let rp1 : List (String × PVal) :=
    match query_params.lookup "days" with
    | some v => [("days", PVal.s v)]
    | none => []
  let rp2 : List (String × PVal) :=
    match query_params.lookup "types" with
    | some v => rp1 ++ [("types", PVal.s v)]
    | none => rp1
  match query_params.lookup "interval" with
  | some v => rp2 ++ [("interval", PVal.s v)]
  | none => rp2

/-- The `impl` closure of resource `senechal://health/trends` (lines
213-236): allow-list `days`, `types`, `interval`; envelope on failure. -/
def get_health_trends (upstream : Upstream) (_resource_uri : String)
    (query_params : List (String × String)) : Json × List Request :=
  match make_api_request upstream "health/trends"
      (trends_request_params query_params) true with
  | (Except.ok data, trace) => (data, trace)
  | (Except.error e, trace) =>
    (errorEnvelope e "Unable to retrieve health trend data. Please check your API key and connection.", trace)

/-- Lines 252-256: the `request_params` dict the stats resource builds
(allow-list `days`, `types`, tested in that order). -/
def stats_request_params (query_params : List (String × String)) :
    List (String × PVal) :=
  let rp1 : List (String × PVal) :=
    match query_params.lookup "days" with
    | some v => [("days", PVal.s v)]
    | none => []
  match query_params.lookup "types" with
  | some v => rp1 ++ [("types", PVal.s v)]
  | none => rp1

/-- The `impl` closure of resource `senechal://health/stats` (lines
247-268): allow-list `days`, `types`; envelope on failure. -/
def get_health_stats (upstream : Upstream) (_resource_uri : String)
    (query_params : List (String × String)) : Json × List Request :=
  match make_api_request upstream "health/stats"
      (stats_request_params query_params) true with
  | (Except.ok data, trace) => (data, trace)
  | (Except.error e, trace) =>
    (errorEnvelope e "Unable to retrieve health statistics data. Please check your API key and connection.", trace)

/-- The string httpx renders a parameter value as. -/
def pvalStr : PVal → String
  | PVal.s v => v
  | PVal.i n => String.mk (intChars n)

/-- The query string of a request: `k=v` pairs joined with `&`, in dict
insertion order (percent-encoding of the rendered values not modelled). -/
def renderQuery (params : List (String × PVal)) : String :=
  String.intercalate "&" (params.map (fun kv => kv.1 ++ "=" ++ pvalStr kv.2))

/-- The process environment at startup: the two variables the server reads.
`none` models an unset variable, as `os.getenv` returns `None`. -/
structure Env where
  senechal_api_base_url : Option String
  senechal_api_key : Option String

/-- Python truthiness of `os.getenv`'s result: `None` and the empty string
are falsy. -/
def truthyOptStr : Option String → Bool
  | none => false
  | some s => !(s == "")

/-- Startup outcome: the `ValueError` raised at import time, or the server
constructed and run with its configuration. -/
inductive StartupResult where
  | fatal (valueErrorMsg : String) : StartupResult
  | running (apiBaseUrl apiKey : String) : StartupResult

/-- Lines 54-63 of the server: read `SENECHAL_API_BASE_URL` and
`SENECHAL_API_KEY`; `if not API_BASE_URL: raise ValueError(...)`, likewise
for the key; only past both checks does the module finish loading and
`mcp.run()` serve. -/
def startup (env : Env) : StartupResult :=
  if !truthyOptStr env.senechal_api_base_url then
    StartupResult.fatal "SENECHAL_API_BASE_URL environment variable is required"
  else if !truthyOptStr env.senechal_api_key then
    StartupResult.fatal "SENECHAL_API_KEY environment variable is required"
  else
    StartupResult.running (env.senechal_api_base_url.getD "") (env.senechal_api_key.getD "")

/-- Is `j` the Error Envelope shape: an object with a string `error` field
and a non-empty string `message` field? -/
def isErrorEnvelope : Json → Bool
  | Json.obj kvs =>
    (match lookupKey kvs "error".data with
     | some (Json.str _) => true
     | _ => false)
    &&
    (match lookupKey kvs "message".data with
     | some (Json.str m) => !m.isEmpty
     | _ => false)
  | _ => false

/-- Does the payload contain a `summaries` field holding a list? -/
def hasSummariesList : Json → Bool
  | Json.obj kvs =>
    (match lookupKey kvs "summaries".data with
     | some (Json.arr _) => true
     | _ => false)
  | _ => false

/-- An upstream behaviour on which `make_api_request` in JSON mode raises:
a transport failure, a non-2xx status, or a 2xx body that is not valid
JSON. -/
def requestFails : UpstreamBehavior → Prop
  | UpstreamBehavior.transportFail _ => True
  | UpstreamBehavior.respond status body => is2xx status = false ∨ parseTop body = none

/-- An upstream behaviour on which `make_api_request` in text mode raises:
a transport failure or a non-2xx status (no decode is attempted). -/
def requestFailsText : UpstreamBehavior → Prop
  | UpstreamBehavior.transportFail _ => True
  | UpstreamBehavior.respond status _ => is2xx status = false

/-- The upstream interface of the summary endpoint (spec section 6,
`GET /health/summary/{period}` returns JSON with a `summaries` list): any
2xx body of that endpoint that decodes at all decodes to an object
carrying a `summaries` list. -/
def summaryUpstreamOk (upstream : Upstream) (period : String) : Prop :=
  ∀ req status body, req.endpoint = "health/summary/" ++ period →
    upstream req = UpstreamBehavior.respond status body →
    is2xx status = true → ∀ v, parseTop body = some v → hasSummariesList v = true

/-- A concrete upstream on which every request fails at the transport
level; instantiates the failure theorems at a closed input. -/
def failUpstream : Upstream := fun _ => UpstreamBehavior.transportFail "connection refused"

/-- A concrete upstream answering every request with `200` and the markdown
body `# Profile`. -/
def profileUpstream : Upstream :=
  fun _ => UpstreamBehavior.respond 200 ("# Profile".data)

/-- A concrete upstream answering every request with `200` and the JSON
body `null`. -/
def nullUpstream : Upstream := fun _ => UpstreamBehavior.respond 200 ("null".data)

/-- A concrete upstream answering every request with `200` and the JSON
body ` null` — valid JSON with a leading space. -/
def wsUpstream : Upstream := fun _ => UpstreamBehavior.respond 200 (" null".data)

/-! Helper lemmas: decimal digits and the number parser. -/

theorem digitChar_isDigit (m : Nat) (h : m < 10) : (digitChar m).isDigit = true := by
  interval_cases m <;> decide

theorem digitChar_toNat (m : Nat) (h : m < 10) : (digitChar m).toNat - 48 = m := by
  interval_cases m <;> decide

theorem natDigitsF_eq (n : Nat) : ∀ f1 f2, n < f1 → n < f2 →
    natDigitsF f1 n = natDigitsF f2 n := by
  induction n using Nat.strong_induction_on with
  | _ n ih =>
    intro f1 f2 h1 h2
    cases f1 with
    | zero => omega
    | succ g1 =>
      cases f2 with
      | zero => omega
      | succ g2 =>
        by_cases h : n < 10
        · simp [natDigitsF, h]
        · have hd : n / 10 < n := Nat.div_lt_self (by omega) (by omega)
          simp only [natDigitsF, if_neg h]
          rw [ih (n / 10) hd g1 g2 (by omega) (by omega)]

theorem natDigits_eq (n : Nat) : natDigits n =
    if n < 10 then [digitChar n] else natDigits (n / 10) ++ [digitChar (n % 10)] := by
  by_cases h : n < 10
  · simp [natDigits, natDigitsF, h]
  · have hd : n / 10 < n := Nat.div_lt_self (by omega) (by omega)
    rw [if_neg h, natDigits, natDigits]
    conv_lhs => rw [natDigitsF]
    rw [if_neg h]
    rw [natDigitsF_eq (n / 10) n (n / 10 + 1) hd (by omega)]

theorem natDigits_ne_nil (n : Nat) : natDigits n ≠ [] := by
  rw [natDigits_eq]
  by_cases h : n < 10 <;> simp [h]

theorem natDigits_all_digit (n : Nat) : ∀ c ∈ natDigits n, c.isDigit = true := by
  induction n using Nat.strong_induction_on with
  | _ n ih =>
    rw [natDigits_eq]
    by_cases h : n < 10
    · simp only [if_pos h, List.mem_singleton]
      intro c hc
      exact hc ▸ digitChar_isDigit n h
    · have hd : n / 10 < n := Nat.div_lt_self (by omega) (by omega)
      simp only [if_neg h, List.mem_append, List.mem_singleton]
      intro c hc
      rcases hc with hc | hc
      · exact ih (n / 10) hd c hc
      · exact hc ▸ digitChar_isDigit (n % 10) (Nat.mod_lt _ (by omega))

theorem digitsToNat_append (xs : List Char) (c : Char) :
    digitsToNat (xs ++ [c]) = digitsToNat xs * 10 + (c.toNat - 48) := by
  simp [digitsToNat, List.foldl_append]

theorem digitsToNat_natDigits (n : Nat) : digitsToNat (natDigits n) = n := by
  induction n using Nat.strong_induction_on with
  | _ n ih =>
    rw [natDigits_eq]
    by_cases h : n < 10
    · simp only [if_pos h, digitsToNat, List.foldl_cons, List.foldl_nil]
      have := digitChar_toNat n h
      omega
    · have hd : n / 10 < n := Nat.div_lt_self (by omega) (by omega)
      rw [if_neg h, digitsToNat_append, ih (n / 10) hd]
      have := digitChar_toNat (n % 10) (Nat.mod_lt _ (by omega))
      omega

/-- The input does not continue a digit run: empty, or a non-digit first
character. -/
def nonDigitStart : List Char → Prop
  | [] => True
  | c :: _ => c.isDigit = false

theorem parseDigits_of_all_digit (ds : List Char) (rest : List Char)
    (hds : ∀ c ∈ ds, c.isDigit = true) (hrest : nonDigitStart rest) :
    parseDigits (ds ++ rest) = (ds, rest) := by
  induction ds with
  | nil =>
    cases rest with
    | nil => rfl
    | cons c cs =>
      have : c.isDigit = false := hrest
      simp [parseDigits, this]
  | cons c cs ih =>
    have hc : c.isDigit = true := hds c (List.mem_cons_self c cs)
    have ih' := ih (fun d hd => hds d (List.mem_cons_of_mem c hd))
    simp [parseDigits, hc, ih']

theorem ne_of_isDigit {c d : Char} (h : c.isDigit = true) (hd : d.isDigit = false) :
    c ≠ d := by
  intro he
  rw [he] at h
  rw [h] at hd
  exact Bool.noConfusion hd

theorem isWsChar_false_of_isDigit {c : Char} (h : c.isDigit = true) :
    isWsChar c = false := by
  rcases hw : isWsChar c with _ | _
  · rfl
  · have := of_decide_eq_true hw
    rcases this with h1 | h1 | h1 | h1 <;> (subst h1; exact absurd h (by decide))

theorem parseNumber_intChars (n : Int) (rest : List Char) (hrest : nonDigitStart rest) :
    parseNumber (intChars n ++ rest) = some (Json.num n, rest) := by
  cases n with
  | ofNat m =>
    obtain ⟨d, ds, hds⟩ : ∃ d ds, natDigits m = d :: ds := by
      cases h : natDigits m with
      | nil => exact absurd h (natDigits_ne_nil m)
      | cons d ds => exact ⟨d, ds, rfl⟩
    have hdig : ∀ c ∈ natDigits m, c.isDigit = true := natDigits_all_digit m
    have hd : d.isDigit = true := by
      apply hdig
      rw [hds]
      exact List.mem_cons_self d ds
    have hne : d ≠ '-' := ne_of_isDigit hd (by decide)
    have hpd := parseDigits_of_all_digit (natDigits m) rest hdig hrest
    rw [hds] at hpd
    have hval : digitsToNat (d :: ds) = m := by
      have := digitsToNat_natDigits m
      rwa [hds] at this
    simp only [intChars, hds, List.cons_append, parseNumber, if_neg hne]
    rw [List.cons_append] at hpd
    rw [hpd]
    simp [hval]
  | negSucc m =>
    obtain ⟨d, ds, hds⟩ : ∃ d ds, natDigits (m + 1) = d :: ds := by
      cases h : natDigits (m + 1) with
      | nil => exact absurd h (natDigits_ne_nil (m + 1))
      | cons d ds => exact ⟨d, ds, rfl⟩
    have hdig := natDigits_all_digit (m + 1)
    have hpd := parseDigits_of_all_digit (natDigits (m + 1)) rest hdig hrest
    rw [hds] at hpd
    have hval : digitsToNat (d :: ds) = m + 1 := by
      have := digitsToNat_natDigits (m + 1)
      rwa [hds] at this
    have hneg : (-(digitsToNat (d :: ds) : Int)) = Int.negSucc m := by
      rw [hval, Int.negSucc_eq]
      push_cast
      ring
    simp only [intChars, hds, List.cons_append, parseNumber, if_pos rfl]
    rw [List.cons_append] at hpd
    rw [hpd]
    simp [hneg]

/-! Helper lemmas: the string parser inverts string escaping, leading
whitespace, and the head character of an encoded value. -/

theorem parseString_escape (s rest : List Char) :
    parseString (escapeStr s ++ ('"' :: rest)) = some (s, rest) := by
  induction s with
  | nil =>
    simp only [escapeStr, List.map_nil, List.flatten_nil, List.nil_append]
    rw [parseString.eq_def]
    simp
  | cons c cs ih =>
    have hesc : escapeStr (c :: cs) = escapeChar c ++ escapeStr cs := by
      simp [escapeStr]
    by_cases h : c = '"' ∨ c = '\\'
    · rw [hesc]
      have he : escapeChar c = ['\\', c] := by simp [escapeChar, h]
      rw [he]
      simp only [List.cons_append, List.append_assoc, List.nil_append]
      rw [parseString.eq_def]
      simp [h, ih]
    · rw [hesc]
      have he : escapeChar c = [c] := by simp [escapeChar, h]
      rw [he]
      push_neg at h
      simp only [List.cons_append, List.nil_append]
      rw [parseString.eq_def]
      simp [h.1, h.2, ih]

theorem dropWs_cons (c : Char) (cs : List Char) (h : isWsChar c = false) :
    dropWs (c :: cs) = c :: cs := by
  simp [dropWs, h]

/-- The head character of an encoded value: non-whitespace, not a closing
bracket, not a comma, not a closing brace. -/
theorem encode_head (v : Json) : ∃ c cs, encode v = c :: cs ∧
    isWsChar c = false ∧ c ≠ ']' ∧ c ≠ ',' ∧ c ≠ '}' := by
  cases v with
  | null => exact ⟨'n', _, rfl, by decide, by decide, by decide, by decide⟩
  | bool b =>
    cases b with
    | false => exact ⟨'f', _, rfl, by decide, by decide, by decide, by decide⟩
    | true => exact ⟨'t', _, rfl, by decide, by decide, by decide, by decide⟩
  | num n =>
    cases n with
    | ofNat m =>
      obtain ⟨d, ds, hds⟩ : ∃ d ds, natDigits m = d :: ds := by
        cases h : natDigits m with
        | nil => exact absurd h (natDigits_ne_nil m)
        | cons d ds => exact ⟨d, ds, rfl⟩
      have hd : d.isDigit = true := by
        apply natDigits_all_digit m
        rw [hds]
        exact List.mem_cons_self d ds
      exact ⟨d, ds, by simp [encode, intChars, hds], isWsChar_false_of_isDigit hd,
        ne_of_isDigit hd (by decide), ne_of_isDigit hd (by decide),
        ne_of_isDigit hd (by decide)⟩
    | negSucc m =>
      refine ⟨'-', natDigits (m + 1), ?_, by decide, by decide, by decide, by decide⟩
      simp [encode, intChars]
  | str s => exact ⟨'"', _, rfl, by decide, by decide, by decide, by decide⟩
  | arr xs =>
    cases xs with
    | nil => exact ⟨'[', _, rfl, by decide, by decide, by decide, by decide⟩
    | cons x xs => exact ⟨'[', _, rfl, by decide, by decide, by decide, by decide⟩
  | obj kvs =>
    cases kvs with
    | nil => exact ⟨'{', _, rfl, by decide, by decide, by decide, by decide⟩
    | cons kv kvs => exact ⟨'{', _, rfl, by decide, by decide, by decide, by decide⟩

theorem dropWs_encode (v : Json) (rest : List Char) :
    dropWs (encode v ++ rest) = encode v ++ rest := by
  obtain ⟨c, cs, hcs, hws, -, -, -⟩ := encode_head v
  rw [hcs, List.cons_append, dropWs_cons c _ hws]

mutual

/-- Structural size of a JSON value, the fuel bound for the parser. -/
def sizeJ : Json → Nat
  | Json.null => 1
  | Json.bool _ => 1
  | Json.num _ => 1
  | Json.str _ => 1
  | Json.arr xs => sizeL xs + 1
  | Json.obj kvs => sizeM kvs + 1

/-- Structural size of an array's elements. -/
def sizeL : List Json → Nat
  | [] => 0
  | v :: vs => sizeJ v + sizeL vs + 1

/-- Structural size of an object's members. -/
def sizeM : List (List Char × Json) → Nat
  | [] => 0
  | (_, v) :: kvs => sizeJ v + sizeM kvs + 1

end

theorem sizeJ_pos (v : Json) : 1 ≤ sizeJ v := by
  cases v <;> simp [sizeJ]

theorem numStart_ne (c : Char) (h : c = '-' ∨ c.isDigit = true) :
    c ≠ 'n' ∧ c ≠ 't' ∧ c ≠ 'f' ∧ c ≠ '"' ∧ c ≠ '[' ∧ c ≠ '{' := by
  rcases h with h | h
  · subst h
    exact ⟨by decide, by decide, by decide, by decide, by decide, by decide⟩
  · exact ⟨ne_of_isDigit h (by decide), ne_of_isDigit h (by decide),
      ne_of_isDigit h (by decide), ne_of_isDigit h (by decide),
      ne_of_isDigit h (by decide), ne_of_isDigit h (by decide)⟩

theorem intChars_head (n : Int) : ∃ c cs, intChars n = c :: cs ∧
    (c = '-' ∨ c.isDigit = true) := by
  cases n with
  | ofNat m =>
    obtain ⟨d, ds, hds⟩ : ∃ d ds, natDigits m = d :: ds := by
      cases h : natDigits m with
      | nil => exact absurd h (natDigits_ne_nil m)
      | cons d ds => exact ⟨d, ds, rfl⟩
    refine ⟨d, ds, by simp [intChars, hds], Or.inr ?_⟩
    apply natDigits_all_digit m
    rw [hds]
    exact List.mem_cons_self d ds
  | negSucc m => exact ⟨'-', natDigits (m + 1), by simp [intChars], Or.inl rfl⟩

/-- The nonDigitStart condition of the continuations arising in the main
round-trip induction. -/
theorem nonDigitStart_tail_arr (vs : List Json) (rest : List Char) :
    nonDigitStart (encodeTail vs ++ (']' :: rest)) := by
  cases vs with
  | nil => simp [encodeTail, nonDigitStart]
  | cons v vs => simp [encodeTail, nonDigitStart]

theorem nonDigitStart_tail_obj (kvs : List (List Char × Json)) (rest : List Char) :
    nonDigitStart (encodeMembersTail kvs ++ ('}' :: rest)) := by
  cases kvs with
  | nil => simp [encodeMembersTail, nonDigitStart]
  | cons kv kvs => simp [encodeMembersTail, nonDigitStart]

/-- Fuelled round-trip: the parser applied to an encoded value, followed by
a continuation that cannot extend a numeral, returns exactly that value
(and, mutually, the element and member parsers invert the list encoders). -/
theorem parse_encode_fuel : ∀ f : Nat,
    (∀ v rest, sizeJ v ≤ f → nonDigitStart rest →
      parseValue f (encode v ++ rest) = some (v, rest)) ∧
    (∀ v vs rest, sizeL (v :: vs) ≤ f →
      parseElems f (encode v ++ (encodeTail vs ++ (']' :: rest))) = some (v :: vs, rest)) ∧
    (∀ k v kvs rest, sizeM ((k, v) :: kvs) ≤ f →
      parseMembers f (encodeMember (k, v) ++ (encodeMembersTail kvs ++ ('}' :: rest))) =
        some ((k, v) :: kvs, rest)) := by
  intro f
  induction f with
  | zero =>
    refine ⟨fun v rest hs _ => absurd hs (by have := sizeJ_pos v; omega),
      fun v vs rest hs => absurd hs ?_, fun k v kvs rest hs => absurd hs ?_⟩
    · have := sizeJ_pos v
      simp only [sizeL]
      omega
    · have := sizeJ_pos v
      simp only [sizeM]
      omega
  | succ f ih =>
    obtain ⟨ih1, ih2, ih3⟩ := ih
    refine ⟨?_, ?_, ?_⟩
    · -- parseValue inverts encode
      intro v rest hs hr
      cases v with
      | null => simp [encode, parseValue, stripPrefixCh]
      | bool b => cases b <;> simp [encode, parseValue, stripPrefixCh]
      | num n =>
        obtain ⟨c, cs, hcs, hcd⟩ := intChars_head n
        obtain ⟨h1, h2, h3, h4, h5, h6⟩ := numStart_ne c hcd
        have henc : encode (Json.num n) ++ rest = c :: (cs ++ rest) := by
          simp [encode, hcs]
        rw [henc]
        simp only [parseValue, if_neg h1, if_neg h2, if_neg h3, if_neg h4,
          if_neg h5, if_neg h6]
        rw [if_pos hcd, ← List.cons_append, ← hcs]
        exact parseNumber_intChars n rest hr
      | str s =>
        have henc : encode (Json.str s) ++ rest = '"' :: (escapeStr s ++ ('"' :: rest)) := by
          simp [encode]
        rw [henc]
        simp [parseValue, parseString_escape]
      | arr xs =>
        cases xs with
        | nil =>
          have henc : encode (Json.arr []) ++ rest = '[' :: (']' :: rest) := by
            simp [encode]
          rw [henc]
          simp [parseValue, dropWs, show isWsChar ']' = false from by decide]
        | cons x xs =>
          have hs' : sizeL (x :: xs) ≤ f := by
            have : sizeJ (Json.arr (x :: xs)) = sizeL (x :: xs) + 1 := by simp [sizeJ]
            omega
          have henc : encode (Json.arr (x :: xs)) ++ rest
              = '[' :: (encode x ++ (encodeTail xs ++ (']' :: rest))) := by
            simp [encode]
          rw [henc]
          simp only [parseValue]
          rw [dropWs_encode x (encodeTail xs ++ (']' :: rest))]
          obtain ⟨c, cs, hcs, hws, hne1, -, -⟩ := encode_head x
          rw [hcs, List.cons_append]
          simp only [if_neg hne1]
          rw [← List.cons_append, ← hcs, ih2 x xs rest hs']
          rfl
      | obj kvs =>
        cases kvs with
        | nil =>
          have henc : encode (Json.obj []) ++ rest = '{' :: ('}' :: rest) := by
            simp [encode]
          rw [henc]
          simp [parseValue, dropWs, show isWsChar '}' = false from by decide]
        | cons kv kvs =>
          obtain ⟨k, v⟩ := kv
          have hs' : sizeM ((k, v) :: kvs) ≤ f := by
            have : sizeJ (Json.obj ((k, v) :: kvs)) = sizeM ((k, v) :: kvs) + 1 := by
              simp [sizeJ]
            omega
          have henc : encode (Json.obj ((k, v) :: kvs)) ++ rest
              = '{' :: (encodeMember (k, v) ++ (encodeMembersTail kvs ++ ('}' :: rest))) := by
            simp [encode]
          rw [henc]
          simp only [parseValue]
          have hm : encodeMember (k, v) ++ (encodeMembersTail kvs ++ ('}' :: rest))
              = '"' :: ((escapeStr k ++ ('"' :: (':' :: encode v)))
                  ++ (encodeMembersTail kvs ++ ('}' :: rest))) := by
            simp [encodeMember]
          rw [hm, dropWs_cons '"' _ (by decide)]
          simp only [if_neg (by decide : ¬('"' = ']'))]
          rw [← hm, ih3 k v kvs rest hs']
          rfl
    · -- parseElems inverts encode on array elements
      intro v vs rest hs
      have hsv : sizeJ v ≤ f := by
        simp only [sizeL] at hs
        omega
      have hih := ih1 v (encodeTail vs ++ (']' :: rest)) hsv (nonDigitStart_tail_arr vs rest)
      simp only [parseElems]
      rw [dropWs_encode v (encodeTail vs ++ (']' :: rest))]
      simp only [hih]
      cases vs with
      | nil => simp [encodeTail, dropWs, show isWsChar ']' = false from by decide]
      | cons v2 vs2 =>
        have hs2 : sizeL (v2 :: vs2) ≤ f := by
          have := sizeJ_pos v
          simp only [sizeL] at hs ⊢
          omega
        have ht : encodeTail (v2 :: vs2) ++ (']' :: rest)
            = ',' :: (encode v2 ++ (encodeTail vs2 ++ (']' :: rest))) := by
          simp [encodeTail]
        rw [ht, dropWs_cons ',' _ (by decide)]
        simp [ih2 v2 vs2 rest hs2]
    · -- parseMembers inverts encode on object members
      intro k v kvs rest hs
      have hsv : sizeJ v ≤ f := by
        simp only [sizeM] at hs
        omega
      have hih := ih1 v (encodeMembersTail kvs ++ ('}' :: rest)) hsv (nonDigitStart_tail_obj kvs rest)
      have hps := parseString_escape k (':' :: (encode v ++ (encodeMembersTail kvs ++ ('}' :: rest))))
      have hm : encodeMember (k, v) ++ (encodeMembersTail kvs ++ ('}' :: rest))
          = '"' :: (escapeStr k ++ ('"' :: (':' :: (encode v
              ++ (encodeMembersTail kvs ++ ('}' :: rest)))))) := by
        simp [encodeMember]
      simp only [parseMembers]
      rw [hm, dropWs_cons '"' _ (by decide)]
      simp only [if_pos rfl, hps]
      rw [dropWs_cons ':' _ (by decide)]
      simp only [if_pos rfl]
      rw [dropWs_encode v (encodeMembersTail kvs ++ ('}' :: rest))]
      simp only [hih]
      cases kvs with
      | nil => simp [encodeMembersTail, dropWs, show isWsChar '}' = false from by decide]
      | cons kv2 kvs2 =>
        obtain ⟨k2, v2⟩ := kv2
        have hs2 : sizeM ((k2, v2) :: kvs2) ≤ f := by
          have := sizeJ_pos v
          simp only [sizeM] at hs ⊢
          omega
        have ht : encodeMembersTail ((k2, v2) :: kvs2) ++ ('}' :: rest)
            = ',' :: (encodeMember (k2, v2) ++ (encodeMembersTail kvs2 ++ ('}' :: rest))) := by
          simp [encodeMembersTail]
        rw [ht, dropWs_cons ',' _ (by decide)]
        simp [ih3 k2 v2 kvs2 rest hs2]

/-- The size of a value never exceeds the length of its encoding, so the
fuel `parseTop` allots (input length + 1) always suffices for an encoded
value. -/
theorem size_le_encode_length : ∀ n : Nat,
    (∀ v, sizeJ v ≤ n → sizeJ v ≤ (encode v).length) ∧
    (∀ v vs, sizeL (v :: vs) ≤ n →
      sizeL (v :: vs) ≤ (encode v ++ encodeTail vs).length + 1) ∧
    (∀ k v kvs, sizeM ((k, v) :: kvs) ≤ n →
      sizeM ((k, v) :: kvs) ≤ (encodeMember (k, v) ++ encodeMembersTail kvs).length + 1) := by
  intro n
  induction n with
  | zero =>
    refine ⟨fun v hs => absurd hs (by have := sizeJ_pos v; omega),
      fun v vs hs => absurd hs ?_, fun k v kvs hs => absurd hs ?_⟩
    · have := sizeJ_pos v
      simp only [sizeL]
      omega
    · have := sizeJ_pos v
      simp only [sizeM]
      omega
  | succ n ih =>
    obtain ⟨ih1, ih2, ih3⟩ := ih
    refine ⟨?_, ?_, ?_⟩
    · intro v hs
      cases v with
      | null => simp [sizeJ, encode]
      | bool b => cases b <;> simp [sizeJ, encode]
      | num m =>
        obtain ⟨c, cs, hcs, -⟩ := intChars_head m
        simp [sizeJ, encode, hcs]
      | str s => simp [sizeJ, encode]
      | arr xs =>
        cases xs with
        | nil => simp [sizeJ, encode, sizeL]
        | cons x xs =>
          have hb : sizeL (x :: xs) ≤ n := by
            simp only [sizeJ] at hs
            omega
          have := ih2 x xs hb
          simp only [sizeJ, encode, List.length_cons, List.length_append] at *
          omega
      | obj kvs =>
        cases kvs with
        | nil => simp [sizeJ, encode, sizeM]
        | cons kv kvs =>
          obtain ⟨k, v⟩ := kv
          have hb : sizeM ((k, v) :: kvs) ≤ n := by
            simp only [sizeJ] at hs
            omega
          have := ih3 k v kvs hb
          simp only [sizeJ, encode, List.length_cons, List.length_append] at *
          omega
    · intro v vs hs
      cases vs with
      | nil =>
        have hv : sizeJ v ≤ n := by
          simp only [sizeL] at hs
          omega
        have := ih1 v hv
        simp only [sizeL, encodeTail, List.append_nil]
        omega
      | cons v2 vs2 =>
        have h2 : sizeL (v2 :: vs2) ≤ n := by
          have := sizeJ_pos v
          simp only [sizeL] at hs ⊢
          omega
        have hv : sizeJ v ≤ n := by
          have h1 := sizeJ_pos v2
          simp only [sizeL] at hs
          omega
        have hl2 := ih2 v2 vs2 h2
        have hl1 := ih1 v hv
        simp only [sizeL, encodeTail, List.length_append, List.length_cons] at *
        omega
    · intro k v kvs hs
      have hmem : (encodeMember (k, v)).length = (escapeStr k).length + (encode v).length + 3 := by
        simp [encodeMember]
        omega
      cases kvs with
      | nil =>
        have hv : sizeJ v ≤ n := by
          simp only [sizeM] at hs
          omega
        have := ih1 v hv
        simp only [sizeM, encodeMembersTail, List.append_nil]
        omega
      | cons kv2 kvs2 =>
        obtain ⟨k2, v2⟩ := kv2
        have h2 : sizeM ((k2, v2) :: kvs2) ≤ n := by
          have := sizeJ_pos v
          simp only [sizeM] at hs ⊢
          omega
        have hv : sizeJ v ≤ n := by
          have h1 := sizeJ_pos v2
          simp only [sizeM] at hs
          omega
        have hl2 := ih3 k2 v2 kvs2 h2
        have hl1 := ih1 v hv
        have hmem2 : (encodeMember (k2, v2)).length
            = (escapeStr k2).length + (encode v2).length + 3 := by
          simp [encodeMember]
          omega
        simp only [sizeM, encodeMembersTail, List.length_append, List.length_cons] at *
        omega

theorem sizeJ_le_length (v : Json) : sizeJ v ≤ (encode v).length :=
  (size_le_encode_length (sizeJ v)).1 v le_rfl

theorem dropWs_encode_nil (v : Json) : dropWs (encode v) = encode v := by
  have := dropWs_encode v []
  simpa using this

theorem parseValue_encode (f : Nat) (v : Json) (h : sizeJ v ≤ f) :
    parseValue f (encode v) = some (v, []) := by
  have := (parse_encode_fuel f).1 v [] h trivial
  simpa using this

/-- Decode/encode round-trip at the value level: re-parsing the canonical
encoding of any decoded value returns exactly that value. -/
theorem parseTop_encode (v : Json) : parseTop (encode v) = some v := by
  unfold parseTop
  rw [dropWs_encode_nil,
    parseValue_encode ((encode v).length + 1) v (by have := sizeJ_le_length v; omega)]
  simp [dropWs]

/-! Helper lemmas: the adapter's request/response behaviour. -/

theorem requestFails_of_text {b : UpstreamBehavior} (h : requestFailsText b) :
    requestFails b := by
  cases b with
  | transportFail m => exact trivial
  | respond status body =>
    simp only [requestFailsText] at h
    exact Or.inl h

theorem make_api_request_trace (upstream : Upstream) (endpoint : String)
    (params : List (String × PVal)) (ej : Bool) :
    (make_api_request upstream endpoint params ej).2 = [⟨endpoint, params⟩] := rfl

theorem make_api_request_fails (upstream : Upstream) (endpoint : String)
    (params : List (String × PVal))
    (h : requestFails (upstream ⟨endpoint, params⟩)) :
    ∃ e, make_api_request upstream endpoint params true
      = (Except.error e, [⟨endpoint, params⟩]) := by
  unfold make_api_request
  cases hu : upstream ⟨endpoint, params⟩ with
  | transportFail msg => exact ⟨msg, by simp [hu]⟩
  | respond status body =>
    rw [hu] at h
    simp only [requestFails] at h
    by_cases h2 : is2xx status = true
    · rcases h with h | h
      · rw [h] at h2
        exact absurd h2 (by simp)
      · exact ⟨jsonDecodeErrorMsg, by simp [hu, h2, h]⟩
    · have h2' : is2xx status = false := by
        revert h2
        cases is2xx status <;> simp
      exact ⟨statusErrorMsg status, by simp [hu, h2']⟩

theorem make_api_request_text_fails (upstream : Upstream) (endpoint : String)
    (params : List (String × PVal))
    (h : requestFailsText (upstream ⟨endpoint, params⟩)) :
    ∃ e, make_api_request upstream endpoint params false
      = (Except.error e, [⟨endpoint, params⟩]) := by
  unfold make_api_request
  cases hu : upstream ⟨endpoint, params⟩ with
  | transportFail msg => exact ⟨msg, by simp [hu]⟩
  | respond status body =>
    rw [hu] at h
    simp only [requestFailsText] at h
    exact ⟨statusErrorMsg status, by simp [hu, h]⟩

theorem make_api_request_ok_json (upstream : Upstream) (endpoint : String)
    (params : List (String × PVal)) (status : Nat) (body : List Char) (v : Json)
    (hu : upstream ⟨endpoint, params⟩ = UpstreamBehavior.respond status body)
    (h2 : is2xx status = true) (hp : parseTop body = some v) :
    make_api_request upstream endpoint params true
      = (Except.ok v, [⟨endpoint, params⟩]) := by
  unfold make_api_request
  simp [hu, h2, hp]

theorem make_api_request_ok_text (upstream : Upstream) (endpoint : String)
    (params : List (String × PVal)) (status : Nat) (body : List Char)
    (hu : upstream ⟨endpoint, params⟩ = UpstreamBehavior.respond status body)
    (h2 : is2xx status = true) :
    make_api_request upstream endpoint params false
      = (Except.ok (Json.str body), [⟨endpoint, params⟩]) := by
  unfold make_api_request
  simp [hu, h2]

theorem make_api_request_cases (upstream : Upstream) (endpoint : String)
    (params : List (String × PVal)) (ej : Bool) :
    (∃ v, (make_api_request upstream endpoint params ej).1 = Except.ok v) ∨
    (∃ e, (make_api_request upstream endpoint params ej).1 = Except.error e) := by
  unfold make_api_request
  cases hu : upstream ⟨endpoint, params⟩ with
  | transportFail m =>
    right
    exact ⟨m, by simp [hu]⟩
  | respond status body =>
    by_cases h2 : is2xx status = true
    · cases ej with
      | false =>
        left
        exact ⟨Json.str body, by simp [hu, h2]⟩
      | true =>
        cases hp : parseTop body with
        | none =>
          right
          exact ⟨jsonDecodeErrorMsg, by simp [hu, h2, hp]⟩
        | some v =>
          left
          exact ⟨v, by simp [hu, h2, hp]⟩
    · right
      have h2' : is2xx status = false := by
        revert h2
        cases is2xx status <;> simp
      exact ⟨statusErrorMsg status, by simp [hu, h2']⟩

theorem isErrorEnvelope_errorEnvelope (e msg : String) (h : 0 < msg.length) :
    isErrorEnvelope (errorEnvelope e msg) = true := by
  have hne : msg.data ≠ [] := List.ne_nil_of_length_pos h
  simp [isErrorEnvelope, errorEnvelope, lookupKey, hne]

theorem length_append_pos_left (a b : String) (ha : 0 < a.length) :
    0 < (a ++ b).length := by
  rw [String.length_append]
  omega

theorem length_append_pos_right (a b : String) (hb : 0 < b.length) :
    0 < (a ++ b).length := by
  rw [String.length_append]
  omega

theorem make_api_request_eq (upstream : Upstream) (endpoint : String)
    (params : List (String × PVal)) (ej : Bool) :
    make_api_request upstream endpoint params ej
      = ((make_api_request upstream endpoint params ej).1, [⟨endpoint, params⟩]) := rfl

/-! Per-capability lemmas: each handler's result on upstream failure, and
the single request each handler issues. -/

theorem fetch_health_summary_fail (upstream : Upstream) (period metrics : String)
    (span offset : Int) (h : ∀ req, requestFails (upstream req)) :
    ∃ e, (fetch_health_summary upstream period metrics span offset).1
      = errorEnvelope e ("Unable to retrieve health summary data for period '" ++ period
          ++ "'. Please check your API key and connection.") := by
  obtain ⟨e, he⟩ := make_api_request_fails upstream ("health/summary/" ++ period)
    [("metrics", PVal.s metrics), ("span", PVal.i span), ("offset", PVal.i offset)] (h _)
  exact ⟨e, by simp [fetch_health_summary, he]⟩

theorem fetch_current_health_fail (upstream : Upstream) (types : Option (List Int))
    (h : ∀ req, requestFails (upstream req)) :
    ∃ e, (fetch_current_health upstream types).1
      = errorEnvelope e "Unable to retrieve current health measurements. Please check your API key and connection." := by
  obtain ⟨e, he⟩ := make_api_request_fails upstream "health/current"
    (if truthyTypes types then [("types", PVal.s (joinTypes (types.getD [])))] else []) (h _)
  exact ⟨e, by simp [fetch_current_health, he]⟩

theorem fetch_health_trends_fail (upstream : Upstream) (days : Int)
    (types : Option (List Int)) (interval : String)
    (h : ∀ req, requestFails (upstream req)) :
    ∃ e, (fetch_health_trends upstream days types interval).1
      = errorEnvelope e ("Unable to retrieve health trend data for the past "
          ++ String.mk (intChars days) ++ " days. Please check your API key and connection.") := by
  obtain ⟨e, he⟩ := make_api_request_fails upstream "health/trends"
    (if truthyTypes types
      then [("days", PVal.i days), ("interval", PVal.s interval),
            ("types", PVal.s (joinTypes (types.getD [])))]
      else [("days", PVal.i days), ("interval", PVal.s interval)]) (h _)
  exact ⟨e, by simp [fetch_health_trends, he]⟩

theorem fetch_health_stats_fail (upstream : Upstream) (days : Int)
    (types : Option (List Int)) (h : ∀ req, requestFails (upstream req)) :
    ∃ e, (fetch_health_stats upstream days types).1
      = errorEnvelope e ("Unable to retrieve health statistics data for the past "
          ++ String.mk (intChars days) ++ " days. Please check your API key and connection.") := by
  obtain ⟨e, he⟩ := make_api_request_fails upstream "health/stats"
    (if truthyTypes types
      then [("days", PVal.i days), ("types", PVal.s (joinTypes (types.getD [])))]
      else [("days", PVal.i days)]) (h _)
  exact ⟨e, by simp [fetch_health_stats, he]⟩

theorem get_health_summary_fail (upstream : Upstream) (period ruri : String)
    (qp : List (String × String)) (h : ∀ req, requestFails (upstream req)) :
    ∃ e, (get_health_summary upstream period ruri qp).1
      = errorEnvelope e ("Unable to retrieve health summary data for period '" ++ period
          ++ "'. Please check your API key and connection.") := by
  obtain ⟨e, he⟩ := make_api_request_fails upstream ("health/summary/" ++ period)
    (summary_request_params qp) (h _)
  exact ⟨e, by simp [get_health_summary, he]⟩

theorem get_current_measurements_fail (upstream : Upstream) (ruri : String)
    (qp : List (String × String)) (h : ∀ req, requestFails (upstream req)) :
    ∃ e, (get_current_measurements upstream ruri qp).1
      = errorEnvelope e "Unable to retrieve current health measurements. Please check your API key and connection." := by
  obtain ⟨e, he⟩ := make_api_request_fails upstream "health/current"
    (current_request_params qp) (h _)
  exact ⟨e, by simp [get_current_measurements, he]⟩

theorem get_health_trends_fail (upstream : Upstream) (ruri : String)
    (qp : List (String × String)) (h : ∀ req, requestFails (upstream req)) :
    ∃ e, (get_health_trends upstream ruri qp).1
      = errorEnvelope e "Unable to retrieve health trend data. Please check your API key and connection." := by
  obtain ⟨e, he⟩ := make_api_request_fails upstream "health/trends"
    (trends_request_params qp) (h _)
  exact ⟨e, by simp [get_health_trends, he]⟩

theorem get_health_stats_fail (upstream : Upstream) (ruri : String)
    (qp : List (String × String)) (h : ∀ req, requestFails (upstream req)) :
    ∃ e, (get_health_stats upstream ruri qp).1
      = errorEnvelope e "Unable to retrieve health statistics data. Please check your API key and connection." := by
  obtain ⟨e, he⟩ := make_api_request_fails upstream "health/stats"
    (stats_request_params qp) (h _)
  exact ⟨e, by simp [get_health_stats, he]⟩

theorem fetch_health_profile_fail (upstream : Upstream)
    (h : ∀ req, requestFailsText (upstream req)) :
    (fetch_health_profile upstream).1 = Json.str profileErrorText.data := by
  obtain ⟨e, he⟩ := make_api_request_text_fails upstream "health/profile" [] (h _)
  simp [fetch_health_profile, he]

theorem get_health_profile_fail (upstream : Upstream) (ruri : String)
    (qp : List (String × String)) (h : ∀ req, requestFailsText (upstream req)) :
    (get_health_profile upstream ruri qp).1 = Json.str profileErrorText.data := by
  obtain ⟨e, he⟩ := make_api_request_text_fails upstream "health/profile" [] (h _)
  simp [get_health_profile, he]

theorem fetch_health_profile_ok (upstream : Upstream) (status : Nat) (body : List Char)
    (hu : upstream ⟨"health/profile", []⟩ = UpstreamBehavior.respond status body)
    (h2 : is2xx status = true) :
    (fetch_health_profile upstream).1 = Json.str body := by
  have hok := make_api_request_ok_text upstream "health/profile" [] status body hu h2
  simp [fetch_health_profile, hok]

theorem get_health_profile_ok (upstream : Upstream) (ruri : String)
    (qp : List (String × String)) (status : Nat) (body : List Char)
    (hu : upstream ⟨"health/profile", []⟩ = UpstreamBehavior.respond status body)
    (h2 : is2xx status = true) :
    (get_health_profile upstream ruri qp).1 = Json.str body := by
  have hok := make_api_request_ok_text upstream "health/profile" [] status body hu h2
  simp [get_health_profile, hok]

theorem get_health_summary_trace (upstream : Upstream) (period ruri : String)
    (qp : List (String × String)) :
    (get_health_summary upstream period ruri qp).2
      = [⟨"health/summary/" ++ period, summary_request_params qp⟩] := by
  rcases make_api_request_cases upstream ("health/summary/" ++ period)
      (summary_request_params qp) true with ⟨v, hv⟩ | ⟨e, he⟩
  · have hfull := make_api_request_eq upstream ("health/summary/" ++ period)
      (summary_request_params qp) true
    rw [hv] at hfull
    simp [get_health_summary, hfull]
  · have hfull := make_api_request_eq upstream ("health/summary/" ++ period)
      (summary_request_params qp) true
    rw [he] at hfull
    simp [get_health_summary, hfull]

theorem get_current_measurements_trace (upstream : Upstream) (ruri : String)
    (qp : List (String × String)) :
    (get_current_measurements upstream ruri qp).2
      = [⟨"health/current", current_request_params qp⟩] := by
  rcases make_api_request_cases upstream "health/current"
      (current_request_params qp) true with ⟨v, hv⟩ | ⟨e, he⟩
  · have hfull := make_api_request_eq upstream "health/current" (current_request_params qp) true
    rw [hv] at hfull
    simp [get_current_measurements, hfull]
  · have hfull := make_api_request_eq upstream "health/current" (current_request_params qp) true
    rw [he] at hfull
    simp [get_current_measurements, hfull]

theorem get_health_trends_trace (upstream : Upstream) (ruri : String)
    (qp : List (String × String)) :
    (get_health_trends upstream ruri qp).2
      = [⟨"health/trends", trends_request_params qp⟩] := by
  rcases make_api_request_cases upstream "health/trends"
      (trends_request_params qp) true with ⟨v, hv⟩ | ⟨e, he⟩
  · have hfull := make_api_request_eq upstream "health/trends" (trends_request_params qp) true
    rw [hv] at hfull
    simp [get_health_trends, hfull]
  · have hfull := make_api_request_eq upstream "health/trends" (trends_request_params qp) true
    rw [he] at hfull
    simp [get_health_trends, hfull]

theorem get_health_stats_trace (upstream : Upstream) (ruri : String)
    (qp : List (String × String)) :
    (get_health_stats upstream ruri qp).2
      = [⟨"health/stats", stats_request_params qp⟩] := by
  rcases make_api_request_cases upstream "health/stats"
      (stats_request_params qp) true with ⟨v, hv⟩ | ⟨e, he⟩
  · have hfull := make_api_request_eq upstream "health/stats" (stats_request_params qp) true
    rw [hv] at hfull
    simp [get_health_stats, hfull]
  · have hfull := make_api_request_eq upstream "health/stats" (stats_request_params qp) true
    rw [he] at hfull
    simp [get_health_stats, hfull]

theorem fetch_current_health_trace (upstream : Upstream) (types : Option (List Int)) :
    (fetch_current_health upstream types).2
      = [⟨"health/current",
          if truthyTypes types then [("types", PVal.s (joinTypes (types.getD [])))]
          else []⟩] := by
  rcases make_api_request_cases upstream "health/current"
      (if truthyTypes types then [("types", PVal.s (joinTypes (types.getD [])))] else []) true
    with ⟨v, hv⟩ | ⟨e, he⟩
  · have hfull := make_api_request_eq upstream "health/current"
      (if truthyTypes types then [("types", PVal.s (joinTypes (types.getD [])))] else []) true
    rw [hv] at hfull
    simp [fetch_current_health, hfull]
  · have hfull := make_api_request_eq upstream "health/current"
      (if truthyTypes types then [("types", PVal.s (joinTypes (types.getD [])))] else []) true
    rw [he] at hfull
    simp [fetch_current_health, hfull]

theorem fetch_health_trends_trace (upstream : Upstream) (days : Int)
    (types : Option (List Int)) (interval : String) :
    (fetch_health_trends upstream days types interval).2
      = [⟨"health/trends",
          if truthyTypes types
          then [("days", PVal.i days), ("interval", PVal.s interval),
                ("types", PVal.s (joinTypes (types.getD [])))]
          else [("days", PVal.i days), ("interval", PVal.s interval)]⟩] := by
  rcases make_api_request_cases upstream "health/trends"
      (if truthyTypes types
        then [("days", PVal.i days), ("interval", PVal.s interval),
              ("types", PVal.s (joinTypes (types.getD [])))]
        else [("days", PVal.i days), ("interval", PVal.s interval)]) true
    with ⟨v, hv⟩ | ⟨e, he⟩
  · have hfull := make_api_request_eq upstream "health/trends"
      (if truthyTypes types
        then [("days", PVal.i days), ("interval", PVal.s interval),
              ("types", PVal.s (joinTypes (types.getD [])))]
        else [("days", PVal.i days), ("interval", PVal.s interval)]) true
    rw [hv] at hfull
    simp [fetch_health_trends, hfull]
  · have hfull := make_api_request_eq upstream "health/trends"
      (if truthyTypes types
        then [("days", PVal.i days), ("interval", PVal.s interval),
              ("types", PVal.s (joinTypes (types.getD [])))]
        else [("days", PVal.i days), ("interval", PVal.s interval)]) true
    rw [he] at hfull
    simp [fetch_health_trends, hfull]

theorem fetch_health_stats_trace (upstream : Upstream) (days : Int)
    (types : Option (List Int)) :
    (fetch_health_stats upstream days types).2
      = [⟨"health/stats",
          if truthyTypes types
          then [("days", PVal.i days), ("types", PVal.s (joinTypes (types.getD [])))]
          else [("days", PVal.i days)]⟩] := by
  rcases make_api_request_cases upstream "health/stats"
      (if truthyTypes types
        then [("days", PVal.i days), ("types", PVal.s (joinTypes (types.getD [])))]
        else [("days", PVal.i days)]) true
    with ⟨v, hv⟩ | ⟨e, he⟩
  · have hfull := make_api_request_eq upstream "health/stats"
      (if truthyTypes types
        then [("days", PVal.i days), ("types", PVal.s (joinTypes (types.getD [])))]
        else [("days", PVal.i days)]) true
    rw [hv] at hfull
    simp [fetch_health_stats, hfull]
  · have hfull := make_api_request_eq upstream "health/stats"
      (if truthyTypes types
        then [("days", PVal.i days), ("types", PVal.s (joinTypes (types.getD [])))]
        else [("days", PVal.i days)]) true
    rw [he] at hfull
    simp [fetch_health_stats, hfull]

/-! Allow-list lemmas: the request parameters each resource builds stay
inside its allow-list, and a query parameter outside the allow-list leaves
the built parameters (and the whole result) unchanged. -/

theorem summary_request_params_keys (qp : List (String × String)) :
    ∀ p ∈ summary_request_params qp,
      p.1 ∈ (["metrics", "span", "offset"] : List String) := by
  cases h1 : qp.lookup "metrics" <;> cases h2 : qp.lookup "span" <;>
    cases h3 : qp.lookup "offset" <;>
    simp [summary_request_params, h1, h2, h3]

theorem current_request_params_keys (qp : List (String × String)) :
    ∀ p ∈ current_request_params qp, p.1 ∈ (["types"] : List String) := by
  cases h1 : qp.lookup "types" <;> simp [current_request_params, h1]

theorem trends_request_params_keys (qp : List (String × String)) :
    ∀ p ∈ trends_request_params qp,
      p.1 ∈ (["days", "types", "interval"] : List String) := by
  cases h1 : qp.lookup "days" <;> cases h2 : qp.lookup "types" <;>
    cases h3 : qp.lookup "interval" <;>
    simp [trends_request_params, h1, h2, h3]

theorem stats_request_params_keys (qp : List (String × String)) :
    ∀ p ∈ stats_request_params qp, p.1 ∈ (["days", "types"] : List String) := by
  cases h1 : qp.lookup "days" <;> cases h2 : qp.lookup "types" <;>
    simp [stats_request_params, h1, h2]

theorem lookup_cons_ne (qp : List (String × String)) (k v a : String) (h : a ≠ k) :
    ((k, v) :: qp).lookup a = qp.lookup a := by
  have hb : (a == k) = false := beq_eq_false_iff_ne.mpr h
  simp [List.lookup, hb]

theorem summary_request_params_drop (qp : List (String × String)) (k v : String)
    (hk : k ∉ (["metrics", "span", "offset"] : List String)) :
    summary_request_params ((k, v) :: qp) = summary_request_params qp := by
  simp only [List.mem_cons, List.not_mem_nil, or_false, not_or] at hk
  obtain ⟨h1, h2, h3⟩ := hk
  unfold summary_request_params
  rw [lookup_cons_ne qp k v "metrics" (Ne.symm h1),
    lookup_cons_ne qp k v "span" (Ne.symm h2),
    lookup_cons_ne qp k v "offset" (Ne.symm h3)]

theorem current_request_params_drop (qp : List (String × String)) (k v : String)
    (hk : k ∉ (["types"] : List String)) :
    current_request_params ((k, v) :: qp) = current_request_params qp := by
  simp only [List.mem_cons, List.not_mem_nil, or_false, not_or] at hk
  unfold current_request_params
  rw [lookup_cons_ne qp k v "types" (Ne.symm hk)]

theorem trends_request_params_drop (qp : List (String × String)) (k v : String)
    (hk : k ∉ (["days", "types", "interval"] : List String)) :
    trends_request_params ((k, v) :: qp) = trends_request_params qp := by
  simp only [List.mem_cons, List.not_mem_nil, or_false, not_or] at hk
  obtain ⟨h1, h2, h3⟩ := hk
  unfold trends_request_params
  rw [lookup_cons_ne qp k v "days" (Ne.symm h1),
    lookup_cons_ne qp k v "types" (Ne.symm h2),
    lookup_cons_ne qp k v "interval" (Ne.symm h3)]

theorem stats_request_params_drop (qp : List (String × String)) (k v : String)
    (hk : k ∉ (["days", "types"] : List String)) :
    stats_request_params ((k, v) :: qp) = stats_request_params qp := by
  simp only [List.mem_cons, List.not_mem_nil, or_false, not_or] at hk
  obtain ⟨h1, h2⟩ := hk
  unfold stats_request_params
  rw [lookup_cons_ne qp k v "days" (Ne.symm h1),
    lookup_cons_ne qp k v "types" (Ne.symm h2)]

theorem truthyOptStr_eq_false (o : Option String) :
    truthyOptStr o = false ↔ (o = none ∨ o = some "") := by
  cases o with
  | none => simp [truthyOptStr]
  | some s => simp [truthyOptStr]

/-! The claims. -/

/-- C1: for every call of the tools fetch_health_summary,
fetch_current_health, fetch_health_trends and fetch_health_stats, if the
upstream HTTP GET fails (non-2xx status such as 500, a transport failure,
or a JSON decode failure), the call does not raise past the adapter
boundary (the embedded handler is total) and returns a dictionary with an
`error` field and a non-empty `message` field. -/
theorem C1_tool_failures_return_error_envelope (upstream : Upstream)
    (period metrics interval : String) (span offset days : Int)
    (types : Option (List Int)) (h : ∀ req, requestFails (upstream req)) :
    isErrorEnvelope (fetch_health_summary upstream period metrics span offset).1 = true ∧
    isErrorEnvelope (fetch_current_health upstream types).1 = true ∧
    isErrorEnvelope (fetch_health_trends upstream days types interval).1 = true ∧
    isErrorEnvelope (fetch_health_stats upstream days types).1 = true := by
  obtain ⟨e1, h1⟩ := fetch_health_summary_fail upstream period metrics span offset h
  obtain ⟨e2, h2⟩ := fetch_current_health_fail upstream types h
  obtain ⟨e3, h3⟩ := fetch_health_trends_fail upstream days types interval h
  obtain ⟨e4, h4⟩ := fetch_health_stats_fail upstream days types h
  refine ⟨?_, ?_, ?_, ?_⟩
  · rw [h1]
    exact isErrorEnvelope_errorEnvelope _ _
      (length_append_pos_left _ _ (length_append_pos_left _ _ (by decide)))
  · rw [h2]
    exact isErrorEnvelope_errorEnvelope _ _ (by decide)
  · rw [h3]
    exact isErrorEnvelope_errorEnvelope _ _
      (length_append_pos_left _ _ (length_append_pos_left _ _ (by decide)))
  · rw [h4]
    exact isErrorEnvelope_errorEnvelope _ _
      (length_append_pos_left _ _ (length_append_pos_left _ _ (by decide)))

/-- C1 witness: the theorem at a transport-failing upstream and concrete
arguments. -/
theorem C1_witness :
    (∀ req, requestFails (failUpstream req)) ∧
    (isErrorEnvelope (fetch_health_summary failUpstream "day" "all" 1 0).1 = true ∧
     isErrorEnvelope (fetch_current_health failUpstream none).1 = true ∧
     isErrorEnvelope (fetch_health_trends failUpstream 30 none "day").1 = true ∧
     isErrorEnvelope (fetch_health_stats failUpstream 30 none).1 = true) :=
  ⟨fun _ => True.intro,
   C1_tool_failures_return_error_envelope failUpstream "day" "all" "day" 1 0 30 none
     (fun _ => True.intro)⟩

/-- C2: for every period in (day, week, month, year), invoking the summary
resource with valid parameters — against an upstream honouring the summary
interface — returns either a payload containing a `summaries` list or the
Error Envelope, never an unhandled fault (the embedded handler is total). -/
theorem C2_summary_returns_summaries_or_envelope (upstream : Upstream)
    (period ruri : String) (qp : List (String × String))
    (_hper : period ∈ (["day", "week", "month", "year"] : List String))
    (hok : summaryUpstreamOk upstream period) :
    hasSummariesList (get_health_summary upstream period ruri qp).1 = true ∨
    isErrorEnvelope (get_health_summary upstream period ruri qp).1 = true := by
  have hmsg : 0 < ("Unable to retrieve health summary data for period '" ++ period
      ++ "'. Please check your API key and connection.").length :=
    length_append_pos_left _ _ (length_append_pos_left _ _ (by decide))
  cases hu : upstream ⟨"health/summary/" ++ period, summary_request_params qp⟩ with
  | transportFail m =>
    right
    obtain ⟨e, he⟩ := make_api_request_fails upstream ("health/summary/" ++ period)
      (summary_request_params qp) (by rw [hu]; exact True.intro)
    have hres : (get_health_summary upstream period ruri qp).1
        = errorEnvelope e ("Unable to retrieve health summary data for period '" ++ period
            ++ "'. Please check your API key and connection.") := by
      simp [get_health_summary, he]
    rw [hres]
    exact isErrorEnvelope_errorEnvelope _ _ hmsg
  | respond status body =>
    by_cases h2 : is2xx status = true
    · cases hp : parseTop body with
      | none =>
        right
        obtain ⟨e, he⟩ := make_api_request_fails upstream ("health/summary/" ++ period)
          (summary_request_params qp) (by rw [hu]; exact Or.inr hp)
        have hres : (get_health_summary upstream period ruri qp).1
            = errorEnvelope e ("Unable to retrieve health summary data for period '" ++ period
                ++ "'. Please check your API key and connection.") := by
          simp [get_health_summary, he]
        rw [hres]
        exact isErrorEnvelope_errorEnvelope _ _ hmsg
      | some val =>
        left
        have hok2 := make_api_request_ok_json upstream ("health/summary/" ++ period)
          (summary_request_params qp) status body val hu h2 hp
        have hres : (get_health_summary upstream period ruri qp).1 = val := by
          simp [get_health_summary, hok2]
        rw [hres]
        exact hok ⟨"health/summary/" ++ period, summary_request_params qp⟩
          status body rfl hu h2 val hp
    · right
      have h2' : is2xx status = false := by
        revert h2
        cases is2xx status <;> simp
      obtain ⟨e, he⟩ := make_api_request_fails upstream ("health/summary/" ++ period)
        (summary_request_params qp) (by rw [hu]; exact Or.inl h2')
      have hres : (get_health_summary upstream period ruri qp).1
          = errorEnvelope e ("Unable to retrieve health summary data for period '" ++ period
              ++ "'. Please check your API key and connection.") := by
        simp [get_health_summary, he]
      rw [hres]
      exact isErrorEnvelope_errorEnvelope _ _ hmsg

/-- C2 witness: the theorem at an unreachable upstream and the period
`day` (the Error Envelope arm). -/
theorem C2_witness :
    ("day" ∈ (["day", "week", "month", "year"] : List String)) ∧
    summaryUpstreamOk failUpstream "day" ∧
    (hasSummariesList
        (get_health_summary failUpstream "day" "senechal://health/summary/day" []).1 = true ∨
     isErrorEnvelope
        (get_health_summary failUpstream "day" "senechal://health/summary/day" []).1 = true) := by
  refine ⟨by decide, ?_, ?_⟩
  · intro req status body hep habs
    exact absurd habs (by simp [failUpstream])
  · exact C2_summary_returns_summaries_or_envelope failUpstream "day"
      "senechal://health/summary/day" [] (by decide)
      (fun req status body hep habs => absurd habs (by simp [failUpstream]))

/-- C3 counterexample: with a failing upstream, the profile tool's failure
result is the fixed markdown string — a plain string, not a mapping with
`error` and `message` fields — so the claim fails for the profile
capability. -/
theorem C3_counterexample :
    (fetch_health_profile failUpstream).1 = Json.str profileErrorText.data ∧
    isErrorEnvelope (fetch_health_profile failUpstream).1 = false :=
  ⟨rfl, rfl⟩

/-- C3 amended: when the upstream request fails (transport failure or
non-2xx status), every JSON-mode capability — the summary, current, trends
and stats tools and resources — returns the Error Envelope (a mapping with
a string `error` field and a non-empty string `message` field), but the
text-mode profile capability (tool and resource) instead returns the fixed
markdown error string, which is not such a mapping. -/
theorem C3_failure_shapes (upstream : Upstream)
    (period metrics interval ruri : String) (span offset days : Int)
    (types : Option (List Int)) (qp : List (String × String))
    (h : ∀ req, requestFailsText (upstream req)) :
    isErrorEnvelope (fetch_health_summary upstream period metrics span offset).1 = true ∧
    isErrorEnvelope (fetch_current_health upstream types).1 = true ∧
    isErrorEnvelope (fetch_health_trends upstream days types interval).1 = true ∧
    isErrorEnvelope (fetch_health_stats upstream days types).1 = true ∧
    isErrorEnvelope (get_health_summary upstream period ruri qp).1 = true ∧
    isErrorEnvelope (get_current_measurements upstream ruri qp).1 = true ∧
    isErrorEnvelope (get_health_trends upstream ruri qp).1 = true ∧
    isErrorEnvelope (get_health_stats upstream ruri qp).1 = true ∧
    (fetch_health_profile upstream).1 = Json.str profileErrorText.data ∧
    isErrorEnvelope (fetch_health_profile upstream).1 = false ∧
    (get_health_profile upstream ruri qp).1 = Json.str profileErrorText.data ∧
    isErrorEnvelope (get_health_profile upstream ruri qp).1 = false := by
  have hj : ∀ req, requestFails (upstream req) := fun req => requestFails_of_text (h req)
  obtain ⟨e1, h1⟩ := fetch_health_summary_fail upstream period metrics span offset hj
  obtain ⟨e2, h2⟩ := fetch_current_health_fail upstream types hj
  obtain ⟨e3, h3⟩ := fetch_health_trends_fail upstream days types interval hj
  obtain ⟨e4, h4⟩ := fetch_health_stats_fail upstream days types hj
  obtain ⟨e5, h5⟩ := get_health_summary_fail upstream period ruri qp hj
  obtain ⟨e6, h6⟩ := get_current_measurements_fail upstream ruri qp hj
  obtain ⟨e7, h7⟩ := get_health_trends_fail upstream ruri qp hj
  obtain ⟨e8, h8⟩ := get_health_stats_fail upstream ruri qp hj
  have hp1 := fetch_health_profile_fail upstream h
  have hp2 := get_health_profile_fail upstream ruri qp h
  refine ⟨?_, ?_, ?_, ?_, ?_, ?_, ?_, ?_, hp1, ?_, hp2, ?_⟩
  · rw [h1]
    exact isErrorEnvelope_errorEnvelope _ _
      (length_append_pos_left _ _ (length_append_pos_left _ _ (by decide)))
  · rw [h2]
    exact isErrorEnvelope_errorEnvelope _ _ (by decide)
  · rw [h3]
    exact isErrorEnvelope_errorEnvelope _ _
      (length_append_pos_left _ _ (length_append_pos_left _ _ (by decide)))
  · rw [h4]
    exact isErrorEnvelope_errorEnvelope _ _
      (length_append_pos_left _ _ (length_append_pos_left _ _ (by decide)))
  · rw [h5]
    exact isErrorEnvelope_errorEnvelope _ _
      (length_append_pos_left _ _ (length_append_pos_left _ _ (by decide)))
  · rw [h6]
    exact isErrorEnvelope_errorEnvelope _ _ (by decide)
  · rw [h7]
    exact isErrorEnvelope_errorEnvelope _ _ (by decide)
  · rw [h8]
    exact isErrorEnvelope_errorEnvelope _ _ (by decide)
  · rw [hp1]
    rfl
  · rw [hp2]
    rfl

/-- C3 witness for the amended claim: the theorem at a transport-failing
upstream and concrete arguments. -/
theorem C3_witness :
    (∀ req, requestFailsText (failUpstream req)) ∧
    (isErrorEnvelope (fetch_health_summary failUpstream "day" "all" 1 0).1 = true ∧
     isErrorEnvelope (fetch_current_health failUpstream (some [1])).1 = true ∧
     isErrorEnvelope (fetch_health_trends failUpstream 30 (some [1]) "day").1 = true ∧
     isErrorEnvelope (fetch_health_stats failUpstream 30 (some [1])).1 = true ∧
     isErrorEnvelope (get_health_summary failUpstream "day" "u" []).1 = true ∧
     isErrorEnvelope (get_current_measurements failUpstream "u" []).1 = true ∧
     isErrorEnvelope (get_health_trends failUpstream "u" []).1 = true ∧
     isErrorEnvelope (get_health_stats failUpstream "u" []).1 = true ∧
     (fetch_health_profile failUpstream).1 = Json.str profileErrorText.data ∧
     isErrorEnvelope (fetch_health_profile failUpstream).1 = false ∧
     (get_health_profile failUpstream "u" []).1 = Json.str profileErrorText.data ∧
     isErrorEnvelope (get_health_profile failUpstream "u" []).1 = false) :=
  ⟨fun _ => True.intro,
   C3_failure_shapes failUpstream "day" "all" "day" "u" 1 0 30 (some [1]) []
     (fun _ => True.intro)⟩

/-- C4: the query parameters each resource forwards upstream are a subset
of its allow-list (metrics/span/offset for summaries; types for current;
days/types/interval for trends; days/types for stats), and a
caller-supplied parameter outside every allow-list never reaches the
upstream request and changes nothing (no error: the result is identical). -/
theorem C4_allowlist_enforced (upstream : Upstream) (period ruri : String)
    (qp : List (String × String)) (k v : String)
    (hk : k ∉ (["metrics", "span", "offset", "types", "days", "interval"] : List String)) :
    (∀ r ∈ (get_health_summary upstream period ruri qp).2, ∀ p ∈ r.params,
        p.1 ∈ (["metrics", "span", "offset"] : List String)) ∧
    (∀ r ∈ (get_current_measurements upstream ruri qp).2, ∀ p ∈ r.params,
        p.1 ∈ (["types"] : List String)) ∧
    (∀ r ∈ (get_health_trends upstream ruri qp).2, ∀ p ∈ r.params,
        p.1 ∈ (["days", "types", "interval"] : List String)) ∧
    (∀ r ∈ (get_health_stats upstream ruri qp).2, ∀ p ∈ r.params,
        p.1 ∈ (["days", "types"] : List String)) ∧
    get_health_summary upstream period ruri ((k, v) :: qp)
      = get_health_summary upstream period ruri qp ∧
    get_current_measurements upstream ruri ((k, v) :: qp)
      = get_current_measurements upstream ruri qp ∧
    get_health_trends upstream ruri ((k, v) :: qp)
      = get_health_trends upstream ruri qp ∧
    get_health_stats upstream ruri ((k, v) :: qp)
      = get_health_stats upstream ruri qp := by
  simp only [List.mem_cons, List.not_mem_nil, or_false, not_or] at hk
  obtain ⟨hm, hs, ho, ht, hd, hi⟩ := hk
  have hk1 : k ∉ (["metrics", "span", "offset"] : List String) := by
    simp only [List.mem_cons, List.not_mem_nil, or_false, not_or]
    exact ⟨hm, hs, ho⟩
  have hk2 : k ∉ (["types"] : List String) := by
    simp only [List.mem_cons, List.not_mem_nil, or_false, not_or]
    exact ht
  have hk3 : k ∉ (["days", "types", "interval"] : List String) := by
    simp only [List.mem_cons, List.not_mem_nil, or_false, not_or]
    exact ⟨hd, ht, hi⟩
  have hk4 : k ∉ (["days", "types"] : List String) := by
    simp only [List.mem_cons, List.not_mem_nil, or_false, not_or]
    exact ⟨hd, ht⟩
  refine ⟨?_, ?_, ?_, ?_, ?_, ?_, ?_, ?_⟩
  · rw [get_health_summary_trace]
    intro r hr
    rw [List.mem_singleton] at hr
    subst hr
    exact summary_request_params_keys qp
  · rw [get_current_measurements_trace]
    intro r hr
    rw [List.mem_singleton] at hr
    subst hr
    exact current_request_params_keys qp
  · rw [get_health_trends_trace]
    intro r hr
    rw [List.mem_singleton] at hr
    subst hr
    exact trends_request_params_keys qp
  · rw [get_health_stats_trace]
    intro r hr
    rw [List.mem_singleton] at hr
    subst hr
    exact stats_request_params_keys qp
  · simp [get_health_summary, summary_request_params_drop qp k v hk1]
  · simp [get_current_measurements, current_request_params_drop qp k v hk2]
  · simp [get_health_trends, trends_request_params_drop qp k v hk3]
  · simp [get_health_stats, stats_request_params_drop qp k v hk4]

/-- C4 witness: the theorem at concrete inputs with `bogus` as the
unrecognized parameter. -/
theorem C4_witness :
    ("bogus" ∉ (["metrics", "span", "offset", "types", "days", "interval"] : List String)) ∧
    ((∀ r ∈ (get_health_summary failUpstream "day" "u" [("metrics", "all")]).2,
        ∀ p ∈ r.params, p.1 ∈ (["metrics", "span", "offset"] : List String)) ∧
     (∀ r ∈ (get_current_measurements failUpstream "u" [("metrics", "all")]).2,
        ∀ p ∈ r.params, p.1 ∈ (["types"] : List String)) ∧
     (∀ r ∈ (get_health_trends failUpstream "u" [("metrics", "all")]).2,
        ∀ p ∈ r.params, p.1 ∈ (["days", "types", "interval"] : List String)) ∧
     (∀ r ∈ (get_health_stats failUpstream "u" [("metrics", "all")]).2,
        ∀ p ∈ r.params, p.1 ∈ (["days", "types"] : List String)) ∧
     get_health_summary failUpstream "day" "u" (("bogus", "1") :: [("metrics", "all")])
       = get_health_summary failUpstream "day" "u" [("metrics", "all")] ∧
     get_current_measurements failUpstream "u" (("bogus", "1") :: [("metrics", "all")])
       = get_current_measurements failUpstream "u" [("metrics", "all")] ∧
     get_health_trends failUpstream "u" (("bogus", "1") :: [("metrics", "all")])
       = get_health_trends failUpstream "u" [("metrics", "all")] ∧
     get_health_stats failUpstream "u" (("bogus", "1") :: [("metrics", "all")])
       = get_health_stats failUpstream "u" [("metrics", "all")]) :=
  ⟨by decide,
   C4_allowlist_enforced failUpstream "day" "u" [("metrics", "all")] "bogus" "1" (by decide)⟩

/-- C5: for the text-mode capabilities (the health-profile resource and the
fetch_health_profile tool), a successful invocation returns the upstream
body literally as a string; no JSON parsing is attempted, so this holds
for every body, including bodies that are not valid JSON. -/
theorem C5_text_mode_literal_body (upstream : Upstream) (ruri : String)
    (qp : List (String × String)) (status : Nat) (body : List Char)
    (hu : upstream ⟨"health/profile", []⟩ = UpstreamBehavior.respond status body)
    (h2 : is2xx status = true) :
    (fetch_health_profile upstream).1 = Json.str body ∧
    (get_health_profile upstream ruri qp).1 = Json.str body :=
  ⟨fetch_health_profile_ok upstream status body hu h2,
   get_health_profile_ok upstream ruri qp status body hu h2⟩

/-- C5 witness: the theorem at an upstream serving the markdown body
`# Profile` with status 200 (a body that is not valid JSON). -/
theorem C5_witness :
    (profileUpstream ⟨"health/profile", []⟩
        = UpstreamBehavior.respond 200 ("# Profile".data)) ∧
    is2xx 200 = true ∧
    ((fetch_health_profile profileUpstream).1 = Json.str ("# Profile".data) ∧
     (get_health_profile profileUpstream "senechal://health/profile" []).1
        = Json.str ("# Profile".data)) :=
  ⟨rfl, rfl,
   C5_text_mode_literal_body profileUpstream "senechal://health/profile" [] 200
     ("# Profile".data) rfl rfl⟩

/-- C6 counterexample: the valid 2xx JSON body ` null` (a leading space)
is decoded and returned as `null`, but re-encoding the returned value
produces `null`, which is not byte-for-byte the upstream body — the
round-trip reproduces the body only up to formatting. -/
theorem C6_counterexample :
    (make_api_request wsUpstream "health/current" [] true).1 = Except.ok Json.null ∧
    encode Json.null ≠ (" null").data :=
  ⟨rfl, by decide⟩

/-- C6 amended: a successful JSON-mode response whose body is valid JSON
is decoded and returned unmodified (no schema validation, no renaming);
re-encoding the returned value reproduces the upstream body up to
JSON-insignificant formatting — the re-encoded body parses back to exactly
the returned value — but not necessarily byte-for-byte. -/
theorem C6_json_mode_roundtrip (upstream : Upstream) (endpoint : String)
    (params : List (String × PVal)) (status : Nat) (body : List Char) (v : Json)
    (hu : upstream ⟨endpoint, params⟩ = UpstreamBehavior.respond status body)
    (h2 : is2xx status = true) (hp : parseTop body = some v) :
    (make_api_request upstream endpoint params true).1 = Except.ok v ∧
    parseTop (encode v) = some v := by
  constructor
  · have hok := make_api_request_ok_json upstream endpoint params status body v hu h2 hp
    rw [hok]
  · exact parseTop_encode v

/-- C6 witness: the theorem at an upstream serving the JSON body `null`. -/
theorem C6_witness :
    (nullUpstream ⟨"health/current", []⟩ = UpstreamBehavior.respond 200 ("null".data)) ∧
    is2xx 200 = true ∧ parseTop ("null".data) = some Json.null ∧
    ((make_api_request nullUpstream "health/current" [] true).1 = Except.ok Json.null ∧
     parseTop (encode Json.null) = some Json.null) :=
  ⟨rfl, rfl, rfl,
   C6_json_mode_roundtrip nullUpstream "health/current" [] 200 ("null".data) Json.null
     rfl rfl rfl⟩

/-- C7 counterexample: with days=7, types=[1,2], interval=day the issued
request's query string, rendered in dict insertion order, is
`days=7&interval=day&types=1,2` — not `days=7&types=1,2&interval=day` as
the claim spells it: the code inserts `types` into the params dict after
`days` and `interval`, so `interval` precedes `types`. -/
theorem C7_counterexample :
    (fetch_health_trends failUpstream 7 (some [1, 2]) "day").2
      = [⟨"health/trends",
          [("days", PVal.i 7), ("interval", PVal.s "day"), ("types", PVal.s "1,2")]⟩] ∧
    renderQuery [("days", PVal.i 7), ("interval", PVal.s "day"), ("types", PVal.s "1,2")]
      = "days=7&interval=day&types=1,2" ∧
    renderQuery [("days", PVal.i 7), ("interval", PVal.s "day"), ("types", PVal.s "1,2")]
      ≠ "days=7&types=1,2&interval=day" :=
  ⟨rfl, rfl, by decide⟩

/-- C7 amended: invoking fetch_health_trends with days=7, types=[1,2],
interval=day issues exactly one GET to health/trends carrying exactly the
query parameters days=7, types=1,2 (the list joined into the single
comma-separated value "1,2") and interval=day; in the query string they
appear in dict insertion order, `days=7&interval=day&types=1,2`. -/
theorem C7_trends_request (upstream : Upstream) :
    (fetch_health_trends upstream 7 (some [1, 2]) "day").2
      = [⟨"health/trends",
          [("days", PVal.i 7), ("interval", PVal.s "day"), ("types", PVal.s "1,2")]⟩] ∧
    renderQuery [("days", PVal.i 7), ("interval", PVal.s "day"), ("types", PVal.s "1,2")]
      = "days=7&interval=day&types=1,2" := by
  constructor
  · rw [fetch_health_trends_trace]
    rfl
  · rfl

/-- C8: invoking fetch_health_stats with days=30 and no types filter issues
exactly one upstream GET to health/stats with the single query parameter
days=30 (query string `days=30`) — the request trace is that one request,
whatever the upstream does, so there are no retries and no additional
requests. -/
theorem C8_stats_single_request (upstream : Upstream) :
    (fetch_health_stats upstream 30 none).2
      = [⟨"health/stats", [("days", PVal.i 30)]⟩] ∧
    renderQuery [("days", PVal.i 30)] = "days=30" := by
  constructor
  · rw [fetch_health_stats_trace]
    rfl
  · rfl

/-- C9: startup fails with the raised ValueError — and the server never
reaches the running state — exactly when SENECHAL_API_BASE_URL or
SENECHAL_API_KEY is unset or empty; the running state always carries two
truthy (set, non-empty) values, so a missing value is never deferred to
per-request handling. -/
theorem C9_startup_requires_config (env : Env) :
    ((env.senechal_api_base_url = none ∨ env.senechal_api_base_url = some ""
        ∨ env.senechal_api_key = none ∨ env.senechal_api_key = some "")
      ↔ ∃ msg, startup env = StartupResult.fatal msg) ∧
    (∀ b k, startup env = StartupResult.running b k →
      truthyOptStr env.senechal_api_base_url = true ∧
      truthyOptStr env.senechal_api_key = true) := by
  by_cases hb : truthyOptStr env.senechal_api_base_url = true
  · by_cases hk : truthyOptStr env.senechal_api_key = true
    · constructor
      · constructor
        · intro h
          rcases h with h | h | h | h
          · rw [(truthyOptStr_eq_false _).mpr (Or.inl h)] at hb
            exact absurd hb (by simp)
          · rw [(truthyOptStr_eq_false _).mpr (Or.inr h)] at hb
            exact absurd hb (by simp)
          · rw [(truthyOptStr_eq_false _).mpr (Or.inl h)] at hk
            exact absurd hk (by simp)
          · rw [(truthyOptStr_eq_false _).mpr (Or.inr h)] at hk
            exact absurd hk (by simp)
        · intro ⟨msg, hmsg⟩
          simp [startup, hb, hk] at hmsg
      · intro b k _
        exact ⟨hb, hk⟩
    · have hk' : truthyOptStr env.senechal_api_key = false := by
        revert hk
        cases truthyOptStr env.senechal_api_key <;> simp
      constructor
      · constructor
        · intro _
          by_cases hb2 : truthyOptStr env.senechal_api_base_url = true
          · exact ⟨"SENECHAL_API_KEY environment variable is required",
              by simp [startup, hb2, hk']⟩
          · have hb2' : truthyOptStr env.senechal_api_base_url = false := by
              revert hb2
              cases truthyOptStr env.senechal_api_base_url <;> simp
            exact ⟨"SENECHAL_API_BASE_URL environment variable is required",
              by simp [startup, hb2']⟩
        · intro _
          rcases (truthyOptStr_eq_false _).mp hk' with h | h
          · exact Or.inr (Or.inr (Or.inl h))
          · exact Or.inr (Or.inr (Or.inr h))
      · intro b k hrun
        simp [startup, hb, hk'] at hrun
  · have hb' : truthyOptStr env.senechal_api_base_url = false := by
      revert hb
      cases truthyOptStr env.senechal_api_base_url <;> simp
    constructor
    · constructor
      · intro _
        exact ⟨"SENECHAL_API_BASE_URL environment variable is required",
          by simp [startup, hb']⟩
      · intro _
        rcases (truthyOptStr_eq_false _).mp hb' with h | h
        · exact Or.inl h
        · exact Or.inr (Or.inl h)
    · intro b k hrun
      simp [startup, hb'] at hrun

/-- C9 witness: the theorem at the concrete environment with the base URL
unset, plus the concrete fatal outcome. -/
theorem C9_witness :
    ((((Env.mk none (some "key")).senechal_api_base_url = none
        ∨ (Env.mk none (some "key")).senechal_api_base_url = some ""
        ∨ (Env.mk none (some "key")).senechal_api_key = none
        ∨ (Env.mk none (some "key")).senechal_api_key = some "")
      ↔ ∃ msg, startup (Env.mk none (some "key")) = StartupResult.fatal msg) ∧
     (∀ b k, startup (Env.mk none (some "key")) = StartupResult.running b k →
       truthyOptStr (Env.mk none (some "key")).senechal_api_base_url = true ∧
       truthyOptStr (Env.mk none (some "key")).senechal_api_key = true)) ∧
    startup (Env.mk none (some "key"))
      = StartupResult.fatal "SENECHAL_API_BASE_URL environment variable is required" :=
  ⟨C9_startup_requires_config (Env.mk none (some "key")), rfl⟩

/-- C10: for fetch_current_health, fetch_health_trends and
fetch_health_stats, a falsy `types` argument — None or the empty list —
behaves identically to passing no types at all: the results coincide with
the `types = None` call and the issued request omits the `types` query
parameter entirely. -/
theorem C10_empty_types_like_none (upstream : Upstream) (days : Int)
    (interval : String) (types : Option (List Int))
    (h : truthyTypes types = false) :
    fetch_current_health upstream types = fetch_current_health upstream none ∧
    fetch_health_trends upstream days types interval
      = fetch_health_trends upstream days none interval ∧
    fetch_health_stats upstream days types = fetch_health_stats upstream days none ∧
    (∀ r ∈ (fetch_current_health upstream types).2, ∀ p ∈ r.params, p.1 ≠ "types") ∧
    (∀ r ∈ (fetch_health_trends upstream days types interval).2,
        ∀ p ∈ r.params, p.1 ≠ "types") ∧
    (∀ r ∈ (fetch_health_stats upstream days types).2, ∀ p ∈ r.params, p.1 ≠ "types") := by
  refine ⟨?_, ?_, ?_, ?_, ?_, ?_⟩
  · simp [fetch_current_health, h, show truthyTypes none = false from rfl]
  · simp [fetch_health_trends, h, show truthyTypes none = false from rfl]
  · simp [fetch_health_stats, h, show truthyTypes none = false from rfl]
  · rw [fetch_current_health_trace]
    simp [h]
  · rw [fetch_health_trends_trace]
    simp [h]
    rintro a b (⟨rfl, -⟩ | ⟨rfl, -⟩) <;> decide
  · rw [fetch_health_stats_trace]
    simp [h]

/-- C10 witness: the theorem at `types = some []` (the empty list) with
concrete remaining arguments. -/
theorem C10_witness :
    truthyTypes (some ([] : List Int)) = false ∧
    (fetch_current_health failUpstream (some []) = fetch_current_health failUpstream none ∧
     fetch_health_trends failUpstream 30 (some []) "day"
       = fetch_health_trends failUpstream 30 none "day" ∧
     fetch_health_stats failUpstream 30 (some [])
       = fetch_health_stats failUpstream 30 none ∧
     (∀ r ∈ (fetch_current_health failUpstream (some [])).2,
        ∀ p ∈ r.params, p.1 ≠ "types") ∧
     (∀ r ∈ (fetch_health_trends failUpstream 30 (some []) "day").2,
        ∀ p ∈ r.params, p.1 ≠ "types") ∧
     (∀ r ∈ (fetch_health_stats failUpstream 30 (some [])).2,
        ∀ p ∈ r.params, p.1 ≠ "types")) :=
  ⟨rfl, C10_empty_types_like_none failUpstream 30 "day" (some []) rfl⟩

end Senechal
